import Mathlib

/-!
Verification of the homework-bot polling program (`src/homework.py`,
`src/exceptions.py`) against its specification.

We shallowly embed the Python code: decoded JSON values become the
inductive type `PyVal`, Python exceptions become the inductive `PyError`,
fallible code returns `Except PyError _`, and the polling loop of `main`
becomes an explicit step function on a `LoopState` record.
-/

/-- A decoded JSON value as Python would hold it: `None`, strings,
integers, booleans, lists, and string-keyed dicts (kept as association
lists in insertion order). -/
inductive PyVal where
  | none
  | str (s : String)
  | int (n : Int)
  | bool (b : Bool)
  | list (xs : List PyVal)
  | dict (d : List (String × PyVal))
  deriving Repr

/-- Python `==` on decoded JSON values.  Structural, with Python's numeric
cross-type rule `True == 1`, `False == 0`.  Dicts are compared entrywise
in insertion order (Python dict equality is key-set based, but two dicts
decoded from JSON with the same keys in the same order compare equal
exactly when they are entrywise equal, and JSON objects have distinct
keys). -/
def pyEq : PyVal → PyVal → Bool
  | .none, .none => true
  | .str a, .str b => a == b
  | .int a, .int b => a == b
  | .bool a, .bool b => a == b
  | .int a, .bool b => a == (if b then 1 else 0)
  | .bool a, .int b => (if a then 1 else 0 : Int) == b
  | .list [], .list [] => true
  | .list (a :: as), .list (b :: bs) => pyEq a b && pyEq (.list as) (.list bs)
  | .dict [], .dict [] => true
  | .dict ((ka, va) :: as), .dict ((kb, vb) :: bs) =>
      ka == kb && pyEq va vb && pyEq (.dict as) (.dict bs)
  | _, _ => false
  termination_by a _ => sizeOf a
  decreasing_by all_goals (simp_all; try omega)

/-- The Python exception classes this program can raise, each carrying the
text that `str(exception)` would produce.  Per `src/exceptions.py`, every
custom class derives directly from `Exception`; in particular
`APIResponseStatusCodeException` is NOT a subclass of
`IncorrectAPIResponseException`. -/
inductive PyError where
  | keyError (k : String)                         -- builtin KeyError; `k` is str(e)
  | typeError (msg : String)                      -- builtin TypeError
  | indexError (msg : String)                     -- builtin IndexError
  | attributeError (msg : String)                 -- builtin AttributeError
  | checkResponseException (msg : String)         -- the CheckResponseException class homework.py
                                                  -- names; exceptions.py does NOT define it, so no
                                                  -- operation ever constructs this error
  | unknownHWStatusException (msg : String)       -- exceptions.UnknownHWStatusException
  | apiResponseStatusCodeException (msg : String) -- exceptions.APIResponseStatusCodeException
  | incorrectAPIResponseException (msg : String)  -- exceptions.IncorrectAPIResponseException
  | requestException (msg : String)               -- requests transport errors (ConnectionError etc.)
  deriving DecidableEq, Repr

/-- `str(e)` for an exception: the message it was constructed with. -/
def errStr : PyError → String
  | .keyError k => k
  | .typeError m => m
  | .indexError m => m
  | .attributeError m => m
  | .checkResponseException m => m
  | .unknownHWStatusException m => m
  | .apiResponseStatusCodeException m => m
  | .incorrectAPIResponseException m => m
  | .requestException m => m

/-- Python `str(v)` as used in f-string interpolation. -/
def pyStr : PyVal → String
  | .none => "None"
  | .str s => s
  | .int n => toString n
  | .bool true => "True"
  | .bool false => "False"
  | .list _ => "<list>"
  | .dict _ => "<dict>"

/-- Python `type(v).__name__` for decoded JSON values, used in the texts
of builtin exceptions. -/
def pyTypeName : PyVal → String
  | .none => "NoneType"
  | .str _ => "str"
  | .int _ => "int"
  | .bool _ => "bool"
  | .list _ => "list"
  | .dict _ => "dict"

/-- Python `len(v)`: defined for strings, lists and dicts; `none` for
unsized values (numbers, booleans, None), where `len()` raises
`TypeError("object of type '...' has no len()")`. -/
def pyLen : PyVal → Option Nat
  | .str s => some s.length
  | .list xs => some xs.length
  | .dict d => some d.length
  | _ => none

/-- The text of the `TypeError` that `len(v)` raises on an unsized
value. -/
def noLenMsg (v : PyVal) : String :=
  "object of type '" ++ pyTypeName v ++ "' has no len()"

/-- Python `d.get(k)` on a dict: the value, or `None` when absent. Never
raises. -/
def pyGet (d : List (String × PyVal)) (k : String) : PyVal :=
  match d.lookup k with
  | some v => v
  | Option.none => PyVal.none

/-- Python `v.get(k)`: attribute lookup first — a non-dict has no `.get`,
raising `AttributeError`. -/
def pyGetAttr (v : PyVal) (k : String) : Except PyError PyVal :=
  match v with
  | .dict d => .ok (pyGet d k)
  | _ => .error (.attributeError
      ("'" ++ pyTypeName v ++ "' object has no attribute '" ++ k ++ "'"))

/-- Python `v[k]` with a string key: on a dict, the value or
`KeyError` (whose `str` is the repr of the key); on anything else,
`TypeError` (Python's wording varies with the type — list indices, string
indices, not subscriptable — modelled uniformly but kept distinct per
type via the type name). -/
def pySubscriptStr (v : PyVal) (k : String) : Except PyError PyVal :=
  match v with
  | .dict d =>
    match d.lookup k with
    | some x => .ok x
    | Option.none => .error (.keyError ("'" ++ k ++ "'"))
  | _ => .error (.typeError ("'" ++ pyTypeName v ++ "' object is not subscriptable"))

/-- Python `repr(v)` for hashable JSON scalars, as it appears in
`str(KeyError(v))`. -/
def pyReprKey : PyVal → String
  | .str s => "'" ++ s ++ "'"
  | .none => "None"
  | .int n => toString n
  | .bool true => "True"
  | .bool false => "False"
  | .list _ => "<unhashable>"
  | .dict _ => "<unhashable>"

/-- Python `d[k]` with an arbitrary value as key, on a dict whose keys are
all strings (like `HOMEWORK_STATUSES`): a present string key yields its
value; an absent string key or any hashable non-string key raises
`KeyError` (str of which is the repr of the key — `None` for the `None`
key); an unhashable key (list/dict) raises `TypeError`. -/
def pySubscript (v : PyVal) (k : PyVal) : Except PyError PyVal :=
  match v with
  | .dict d =>
    match k with
    | .str s =>
      match d.lookup s with
      | some x => .ok x
      | Option.none => .error (.keyError ("'" ++ s ++ "'"))
    | .list _ => .error (.typeError "unhashable type: 'list'")
    | .dict _ => .error (.typeError "unhashable type: 'dict'")
    | other => .error (.keyError (pyReprKey other))
  | _ => .error (.typeError ("'" ++ pyTypeName v ++ "' object is not subscriptable"))

/-!
## Embedded program: `src/homework.py`
-/

/-- `RETRY_TIME = 600` (homework.py line 18): the fixed sleep interval in
seconds between cycles.  Time itself is not modelled; every non-crashing
branch of the loop sleeps this same interval before the next cycle. -/
def RETRY_TIME : Nat := 600

/-- `HOMEWORK_STATUSES` (homework.py lines 23-27): the fixed
status-to-verdict dict.  Values kept as `PyVal` so the code's
`verdict is None` test can be modelled as written. -/
def HOMEWORK_STATUSES : List (String × PyVal) :=
  [("approved", .str "Работа проверена: ревьюеру всё понравилось. Ура!"),
   ("reviewing", .str "Работа взята на проверку ревьюером."),
   ("rejected", .str "Работа проверена: у ревьюера есть замечания.")]

/-- The exception every `raise exceptions.CheckResponseException(...)`
line in `check_response` ACTUALLY raises: `src/exceptions.py` defines no
class named `CheckResponseException`, so evaluating the attribute
`exceptions.CheckResponseException` at raise time raises
`AttributeError("module 'exceptions' has no attribute
'CheckResponseException'")` — the prepared message (already logged) is
discarded. -/
def checkResponseAttrError : PyError :=
  .attributeError "module 'exceptions' has no attribute 'CheckResponseException'"

/-- `check_response(response)` (homework.py lines 62-82), in the code's
order: `response['homeworks']` (its `KeyError` is caught by the `except
KeyError` block, whose re-raise of the undefined
`exceptions.CheckResponseException` produces `checkResponseAttrError`);
the `is None` test; the `len(...) == 0` test — which raises `TypeError`
on an unsized value, since `len` runs BEFORE the `isinstance` test; and
finally the `isinstance(..., list)` test.  Every intended
`CheckResponseException` raise actually raises `checkResponseAttrError`.
On success the homeworks list is returned unchanged. -/
def check_response (response : PyVal) : Except PyError (List PyVal) :=
  match pySubscriptStr response "homeworks" with
  | .error (.keyError _) =>
      -- intended: CheckResponseException(f'Ошибка доступа по ключу homeworks: {e}')
      .error checkResponseAttrError
  | .error e => .error e
  | .ok homeworks_list =>
    match homeworks_list with
    | .none =>
      -- intended: CheckResponseException('В ответе API нет словаря с домашними заданиями')
      .error checkResponseAttrError
    | hl =>
      match pyLen hl with
      | Option.none => .error (.typeError (noLenMsg hl))
      | some n =>
        if n = 0 then
          -- intended: CheckResponseException('За последнее время нет домашних заданий')
          .error checkResponseAttrError
        else
          match hl with
          | .list xs => .ok xs
          | _ =>
            -- intended: CheckResponseException('В ответе API домашние задания представлены не списком')
            .error checkResponseAttrError

/-- `parse_status(homework)` (homework.py lines 85-103).
`homework.get(...)` never raises `KeyError` (it returns `None` for a
missing key), so the two `try/except KeyError` blocks — which only log —
are transparent; a non-dict argument raises `AttributeError`, which those
blocks do not catch.  `HOMEWORK_STATUSES[homework_status]` is a dict
subscript: for a status not among the three keys (including `None` from a
missing field) it raises `KeyError`.  Only if that subscript returned
`None` would `UnknownHWStatusException` be raised. -/
def parse_status (homework : PyVal) : Except PyError String :=
  match pyGetAttr homework "homework_name" with
  | .error e => .error e
  | .ok homework_name =>
    match pyGetAttr homework "status" with
    | .error e => .error e
    | .ok homework_status =>
      match pySubscript (PyVal.dict HOMEWORK_STATUSES) homework_status with
      | .error e => .error e
      | .ok verdict =>
        match verdict with
        | .none => .error (.unknownHWStatusException "Неизвестный статус домашки")
        | v => .ok ("Изменился статус проверки работы \"" ++ pyStr homework_name
                    ++ "\". " ++ pyStr v)

/-!
## The polling loop of `main` (homework.py lines 112-153)
-/

/-- The mutable state of `main`'s loop: `current_timestamp` (set once
before the loop, line 120), `previous_status` (line 121, starts as
`None`) and `previous_error` (line 122, starts as `None`). -/
structure LoopState where
  current_timestamp : Int
  previous_status : PyVal
  previous_error : Option String
  deriving Repr

/-- What the external HTTP transport does on one `requests.get` call:
either it returns a response with some HTTP status code and decoded JSON
body, or it raises a transport error (e.g. `ConnectionError`, a
`requests.exceptions.RequestException`). -/
inductive FetchResult where
  | httpStatus (status : Nat) (body : PyVal)
  | transportError (msg : String)

/-- `get_api_answer(current_timestamp)` (homework.py lines 47-59), given
the transport's behaviour.  Returns the query params it sends
(`{'from_date': timestamp}`) and the outcome.  The `try/except
exceptions.APIResponseStatusCodeException` around `requests.get` is dead:
`requests` never raises that custom class, so a transport error
propagates uncaught.  A non-OK (≠ 200) status code raises
`APIResponseStatusCodeException('Сбой при запросе к endpoint')`; on OK
the decoded body is returned unmodified. -/
def get_api_answer (current_timestamp : Int) (fr : FetchResult) :
    List (String × Int) × Except PyError PyVal :=
  let params := [("from_date", current_timestamp)]
  match fr with
  | .transportError msg => (params, .error (.requestException msg))
  | .httpStatus status body =>
    if status = 200 then (params, .ok body)
    else (params, .error (.apiResponseStatusCodeException "Сбой при запросе к endpoint"))

/-- Python `isinstance(e, exceptions.IncorrectAPIResponseException)`: per
`src/exceptions.py` every custom exception class derives directly from
`Exception` and has no subclasses, so only that exact class matches. -/
def isIncorrectAPIResponseException : PyError → Bool
  | .incorrectAPIResponseException _ => true
  | _ => false

/-- The outcome of one loop iteration: either sleep `RETRY_TIME` and
continue with messages sent and a new state, or the iteration raised an
exception no handler caught, terminating `main`. -/
inductive CycleOutcome where
  | next (sent : List String) (st : LoopState)
  | crash (e : PyError)
  deriving Repr

/-- The `except exceptions.IncorrectAPIResponseException` handler
(homework.py lines 127-133): if `str(e) != previous_error`, update
`previous_error` and send the error (as its text); then sleep and
continue. -/
def fetchErrorHandler (st : LoopState) (e : PyError) : CycleOutcome :=
  if (some (errStr e) : Option String) ≠ st.previous_error then
    .next [errStr e] { st with previous_error := some (errStr e) }
  else
    .next [] st

/-- The `except Exception as error` handler (homework.py lines 146-152):
builds `f'Сбой в работе программы: {error}'`; if
`previous_error != str(error)`, update `previous_error` and send the
message; then sleep and continue. -/
def handleLoopError (st : LoopState) (e : PyError) : CycleOutcome :=
  let message := "Сбой в работе программы: " ++ errStr e
  if st.previous_error ≠ some (errStr e) then
    .next [message] { st with previous_error := some (errStr e) }
  else
    .next [] st

/-- Python `homeworks[0]`: `IndexError` on an empty list. -/
def listHead (xs : List PyVal) : Except PyError PyVal :=
  match xs with
  | [] => .error (.indexError "list index out of range")
  | x :: _ => .ok x

/-- The body of the second `try` block (homework.py lines 134-144):
`check_response`, `homeworks[0].get('status')`, compare with
`previous_status`; on change, assign `previous_status` FIRST (line 138)
and only then call `parse_status` (line 139) and send.  An exception
anywhere in this block carries with it the state as mutated so far (the
`previous_status` assignment precedes the `parse_status` call). -/
def processResponse (st : LoopState) (response : PyVal) :
    Except (LoopState × PyError) (List String × LoopState) :=
  match check_response response with
  | .error e => .error (st, e)
  | .ok homeworks =>
    match listHead homeworks with
    | .error e => .error (st, e)
    | .ok hw0 =>
      match pyGetAttr hw0 "status" with
      | .error e => .error (st, e)
      | .ok hw_status =>
        if pyEq hw_status st.previous_status then
          .ok ([], st)
        else
          let st1 := { st with previous_status := hw_status }
          match parse_status hw0 with
          | .error e => .error (st1, e)
          | .ok message => .ok ([message], st1)

/-- One iteration of `while True` (homework.py lines 124-152).
`get_api_answer` failures reach `except
exceptions.IncorrectAPIResponseException` (line 127) — but
`get_api_answer` raises `APIResponseStatusCodeException`, which is NOT an
instance of that class, so the handler never fires and the exception
propagates out of `main`: the loop terminates.  Exceptions in the second
`try` block are caught by `except Exception` (line 146). -/
def mainStep (st : LoopState) (fr : FetchResult) : CycleOutcome :=
  match (get_api_answer st.current_timestamp fr).2 with
  | .error e =>
    if isIncorrectAPIResponseException e then fetchErrorHandler st e
    else .crash e
  | .ok response =>
    match processResponse st response with
    | .ok (sent, st1) => .next sent st1
    | .error (st1, e) => handleLoopError st1 e

/-- The loop state just before the first iteration (homework.py lines
120-122): `current_timestamp = int(time.time() - 604800)` where `t0` is
the process start time in whole seconds, `previous_status = None`,
`previous_error = None`. -/
def initialState (t0 : Int) : LoopState :=
  { current_timestamp := t0 - 604800
    previous_status := PyVal.none
    previous_error := Option.none }

/-- A finite prefix of the infinite loop, driven by one `FetchResult` per
cycle: the per-cycle lists of sent messages, and whether the loop ran the
whole prefix or crashed partway. -/
inductive RunResult where
  | ran (sents : List (List String)) (final : LoopState)
  | crashed (sents : List (List String)) (e : PyError)
  deriving Repr

def mainRun (st : LoopState) : List FetchResult → RunResult
  | [] => .ran [] st
  | fr :: rest =>
    match mainStep st fr with
    | .next sent st1 =>
      match mainRun st1 rest with
      | .ran sents f => .ran (sent :: sents) f
      | .crashed sents e => .crashed (sent :: sents) e
    | .crash e => .crashed [] e

/-- The per-cycle sent-message lists of a run. -/
def sentsOf : RunResult → List (List String)
  | .ran sents _ => sents
  | .crashed sents _ => sents

/-- The query-parameter lists of the successive `get_api_answer` calls a
run performs (one per cycle actually reached). -/
def runParams (st : LoopState) : List FetchResult → List (List (String × Int))
  | [] => []
  | fr :: rest =>
    (get_api_answer st.current_timestamp fr).1 ::
      match mainStep st fr with
      | .next _ st1 => runParams st1 rest
      | .crash _ => []

/-- The loop states at the start of the successive cycles a run reaches
(including the state a completed prefix ends in). -/
def runStates (st : LoopState) : List FetchResult → List LoopState
  | [] => [st]
  | fr :: rest =>
    st :: match mainStep st fr with
      | .next _ st1 => runStates st1 rest
      | .crash _ => []

/-!
## Shared concrete inputs and helper lemmas
-/

/-- A well-formed submission record. -/
def hwRecord (name status : String) : PyVal :=
  .dict [("homework_name", .str name), ("status", .str status)]

/-- A 200-OK fetch whose body holds exactly one record named `proj1`
with the given status. -/
def okBody (status : String) : FetchResult :=
  .httpStatus 200 (.dict [("homeworks", .list [hwRecord "proj1" status])])

/-- A 200-OK fetch whose decoded body lacks the `homeworks` key, making
the cycle's second `try` block raise. -/
def badBody : FetchResult :=
  .httpStatus 200 (.dict [("bad", .int 1)])

/-- Every error `pyGetAttr` returns is an `AttributeError`. -/
theorem pyGetAttr_error_shape (v : PyVal) (k : String) (e : PyError)
    (h : pyGetAttr v k = .error e) : ∃ m, e = .attributeError m := by
  unfold pyGetAttr at h
  split at h
  · simp at h
  · simp only [Except.error.injEq] at h
    exact ⟨_, h.symm⟩

/-- Every error `pySubscript` returns is a `KeyError` or a `TypeError`. -/
theorem pySubscript_error_shape (v k : PyVal) (e : PyError)
    (h : pySubscript v k = .error e) :
    (∃ m, e = .keyError m) ∨ (∃ m, e = .typeError m) := by
  unfold pySubscript at h
  repeat' split at h
  all_goals first
    | (subst h
       first
         | exact Or.inl ⟨_, rfl⟩
         | exact Or.inr ⟨_, rfl⟩)
    | (simp only [Except.error.injEq] at h
       subst h
       first
         | exact Or.inl ⟨_, rfl⟩
         | exact Or.inr ⟨_, rfl⟩)
    | simp at h

/-- Every value the `HOMEWORK_STATUSES` table stores is one of the three
verdict strings — in particular none of them is `None`. -/
theorem lookup_HOMEWORK_STATUSES_not_none (s : String) (v : PyVal)
    (h : List.lookup s HOMEWORK_STATUSES = some v) : v ≠ PyVal.none := by
  unfold HOMEWORK_STATUSES at h
  simp only [List.lookup] at h
  repeat' split at h
  all_goals first
    | (simp only [Option.some.injEq] at h
       subst h
       simp)
    | simp at h

/-- Whatever value `HOMEWORK_STATUSES[k]` successfully yields is never
`None`. -/
theorem HOMEWORK_STATUSES_verdict_not_none (k v : PyVal)
    (h : pySubscript (PyVal.dict HOMEWORK_STATUSES) k = .ok v) :
    v ≠ PyVal.none := by
  cases k
  case str s =>
    simp only [pySubscript] at h
    cases hl : List.lookup s HOMEWORK_STATUSES with
    | none => rw [hl] at h; simp at h
    | some x =>
      rw [hl] at h
      simp only [Except.ok.injEq] at h
      subst h
      exact lookup_HOMEWORK_STATUSES_not_none s x hl
  all_goals simp [pySubscript] at h

/-- Every error `pySubscriptStr` returns is a `KeyError` or a
`TypeError`. -/
theorem pySubscriptStr_error_shape (v : PyVal) (k : String) (e : PyError)
    (h : pySubscriptStr v k = .error e) :
    (∃ m, e = .keyError m) ∨ (∃ m, e = .typeError m) := by
  unfold pySubscriptStr at h
  repeat' split at h
  all_goals first
    | (subst h
       first
         | exact Or.inl ⟨_, rfl⟩
         | exact Or.inr ⟨_, rfl⟩)
    | (simp only [Except.error.injEq] at h
       subst h
       first
         | exact Or.inl ⟨_, rfl⟩
         | exact Or.inr ⟨_, rfl⟩)
    | simp at h

/-- The state carried on either side of a `processResponse` outcome. -/
def responseResultState : Except (LoopState × PyError) (List String × LoopState) → LoopState
  | .ok (_, st) => st
  | .error (st, _) => st

/-- `processResponse` never touches `current_timestamp` or
`previous_error`: the second `try` block of `main` assigns only
`previous_status`. -/
theorem processResponse_frame (st : LoopState) (r : PyVal) :
    (responseResultState (processResponse st r)).current_timestamp = st.current_timestamp ∧
    (responseResultState (processResponse st r)).previous_error = st.previous_error := by
  unfold processResponse
  repeat' split
  all_goals simp [responseResultState]

theorem processResponse_ok_frame (st : LoopState) (r : PyVal) (s : List String)
    (st1 : LoopState) (h : processResponse st r = .ok (s, st1)) :
    st1.current_timestamp = st.current_timestamp ∧
    st1.previous_error = st.previous_error := by
  have hf := processResponse_frame st r
  rw [h] at hf
  simpa [responseResultState] using hf

theorem processResponse_error_frame (st : LoopState) (r : PyVal) (st1 : LoopState)
    (e : PyError) (h : processResponse st r = .error (st1, e)) :
    st1.current_timestamp = st.current_timestamp ∧
    st1.previous_error = st.previous_error := by
  have hf := processResponse_frame st r
  rw [h] at hf
  simpa [responseResultState] using hf

/-- The loop's error handler when the error text is new: it sends the
prefixed message and remembers the text. -/
theorem handleLoopError_new (st : LoopState) (e : PyError)
    (h : st.previous_error ≠ some (errStr e)) :
    handleLoopError st e =
      .next ["Сбой в работе программы: " ++ errStr e]
        { st with previous_error := some (errStr e) } := by
  unfold handleLoopError
  simp [h]

/-- The loop's error handler when the error text equals the remembered
one: nothing is sent and the state is unchanged. -/
theorem handleLoopError_dup (st : LoopState) (e : PyError)
    (h : st.previous_error = some (errStr e)) :
    handleLoopError st e = .next [] st := by
  unfold handleLoopError
  simp [h]

/-- Whatever the loop's error handler does, it continues (never crashes),
leaves `current_timestamp` and `previous_status` alone, and afterwards
`previous_error` holds the handled error's text. -/
theorem handleLoopError_next_shape (st : LoopState) (e : PyError) (s : List String)
    (st1 : LoopState) (h : handleLoopError st e = .next s st1) :
    st1.current_timestamp = st.current_timestamp ∧
    st1.previous_status = st.previous_status ∧
    st1.previous_error = some (errStr e) := by
  unfold handleLoopError at h
  split at h
  all_goals (try simp only [CycleOutcome.next.injEq] at h)
  all_goals (obtain ⟨h1, h2⟩ := h; subst h2; simp_all)

/-- Same shape fact for the (dead) fetch-error handler. -/
theorem fetchErrorHandler_next_shape (st : LoopState) (e : PyError) (s : List String)
    (st1 : LoopState) (h : fetchErrorHandler st e = .next s st1) :
    st1.current_timestamp = st.current_timestamp ∧
    st1.previous_status = st.previous_status := by
  unfold fetchErrorHandler at h
  split at h
  all_goals (try simp only [CycleOutcome.next.injEq] at h)
  all_goals (obtain ⟨h1, h2⟩ := h; subst h2; simp_all)

/-- A transport failure in `requests.get` propagates uncaught: the loop
crashes. -/
theorem mainStep_transport_crashes (st : LoopState) (msg : String) :
    mainStep st (.transportError msg) = .crash (.requestException msg) := rfl

/-- A non-OK HTTP status: `get_api_answer` raises
`APIResponseStatusCodeException`, which `except
IncorrectAPIResponseException` does not match, so the loop crashes. -/
theorem mainStep_non200_crashes (st : LoopState) (status : Nat) (body : PyVal)
    (h : status ≠ 200) :
    mainStep st (.httpStatus status body) =
      .crash (.apiResponseStatusCodeException "Сбой при запросе к endpoint") := by
  unfold mainStep get_api_answer isIncorrectAPIResponseException
  simp [h]

/-- An OK fetch hands the body to the second `try` block. -/
theorem mainStep_ok200 (st : LoopState) (body : PyVal) :
    mainStep st (.httpStatus 200 body) =
      match processResponse st body with
      | .ok (sent, st1) => .next sent st1
      | .error (st1, e) => handleLoopError st1 e := by
  unfold mainStep get_api_answer
  simp

/-- Any continuing iteration leaves `current_timestamp` unchanged. -/
theorem mainStep_next_timestamp (st : LoopState) (fr : FetchResult) (s : List String)
    (st1 : LoopState) (h : mainStep st fr = .next s st1) :
    st1.current_timestamp = st.current_timestamp := by
  cases fr with
  | transportError msg =>
    rw [mainStep_transport_crashes] at h
    exact absurd h (by simp)
  | httpStatus status body =>
    by_cases hs : status = 200
    · subst hs
      rw [mainStep_ok200] at h
      cases hp : processResponse st body with
      | ok p =>
        obtain ⟨sl, stx⟩ := p
        rw [hp] at h
        simp only [CycleOutcome.next.injEq] at h
        obtain ⟨h1, h2⟩ := h
        subst h2
        exact (processResponse_ok_frame _ _ _ _ hp).1
      | error q =>
        obtain ⟨stx, e⟩ := q
        rw [hp] at h
        have h1 := (handleLoopError_next_shape _ _ _ _ h).1
        have h2 := (processResponse_error_frame _ _ _ _ hp).1
        rw [h1, h2]
    · rw [mainStep_non200_crashes st status body hs] at h
      exact absurd h (by simp)

/-- `get_api_answer` always sends exactly `{'from_date': timestamp}`. -/
theorem get_api_answer_params_eq (t : Int) (fr : FetchResult) :
    (get_api_answer t fr).1 = [("from_date", t)] := by
  cases fr with
  | transportError msg => rfl
  | httpStatus status body =>
    by_cases hs : status = 200 <;> simp [get_api_answer, hs]

/-- Every fetch a run performs sends `from_date` equal to the timestamp
of the state the run started from. -/
theorem runParams_from_date (st : LoopState) (frs : List FetchResult) :
    ∀ p ∈ runParams st frs, p = [("from_date", st.current_timestamp)] := by
  induction frs generalizing st with
  | nil => intro p hp; simp [runParams] at hp
  | cons fr rest ih =>
    intro p hp
    unfold runParams at hp
    rcases List.mem_cons.mp hp with h1 | h2
    · rw [h1]
      exact get_api_answer_params_eq st.current_timestamp fr
    · revert h2
      cases ho : mainStep st fr with
      | next sent st1 =>
        intro h2
        have := ih st1 p h2
        rw [this, mainStep_next_timestamp st fr sent st1 ho]
      | crash e =>
        intro h2
        simp at h2

/-!
## Claims
-/

/-- C1: the claim says a failing fetch is caught at the loop boundary,
dedup-notified, and the loop continues.  The code instead TERMINATES: for
every loop state and every non-OK HTTP status, the iteration ends in
`crash` — `get_api_answer` raises `APIResponseStatusCodeException`, the
loop's handler catches only the unrelated class
`IncorrectAPIResponseException`, and no other handler encloses the first
`try` block. -/
theorem C1_fetch_failure_terminates_loop (st : LoopState) (status : Nat) (body : PyVal)
    (h : status ≠ 200) :
    mainStep st (.httpStatus status body) =
      CycleOutcome.crash (.apiResponseStatusCodeException "Сбой при запросе к endpoint") :=
  mainStep_non200_crashes st status body h

/-- Witness for C1 at a concrete failing fetch (HTTP 500). -/
theorem C1_fetch_failure_terminates_loop_witness :
    mainStep (initialState 0) (.httpStatus 500 (PyVal.dict [])) =
      CycleOutcome.crash (.apiResponseStatusCodeException "Сбой при запросе к endpoint") :=
  C1_fetch_failure_terminates_loop (initialState 0) 500 (PyVal.dict []) (by decide)

/-- C8: the end-to-end example: the record
`{"homework_name": "proj1", "status": "approved"}` formats to exactly the
specified string. -/
theorem C8_end_to_end_example :
    parse_status (PyVal.dict [("homework_name", PyVal.str "proj1"),
                              ("status", PyVal.str "approved")]) =
      Except.ok "Изменился статус проверки работы \"proj1\". Работа проверена: ревьюеру всё понравилось. Ура!" := rfl

/-- C10: `parse_status` never raises `UnknownHWStatusException`: the
table subscript either yields one of the three (non-None) verdict
strings or raises `KeyError` first, so the `verdict is None` branch is
unreachable. -/
theorem C10_unknown_status_branch_unreachable (hw : PyVal) (m : String) :
    parse_status hw ≠ Except.error (PyError.unknownHWStatusException m) := by
  unfold parse_status
  cases hname : pyGetAttr hw "homework_name" with
  | error e =>
    obtain ⟨m', rfl⟩ := pyGetAttr_error_shape _ _ _ hname
    simp
  | ok homework_name =>
    simp only [ne_eq]
    cases hstat : pyGetAttr hw "status" with
    | error e =>
      obtain ⟨m', rfl⟩ := pyGetAttr_error_shape _ _ _ hstat
      simp
    | ok homework_status =>
      simp only [ne_eq]
      cases hsub : pySubscript (PyVal.dict HOMEWORK_STATUSES) homework_status with
      | error e =>
        rcases pySubscript_error_shape _ _ _ hsub with ⟨m', rfl⟩ | ⟨m', rfl⟩ <;> simp
      | ok verdict =>
        have hv := HOMEWORK_STATUSES_verdict_not_none _ _ hsub
        cases verdict <;> simp_all

/-- Witness for C10 at a concrete record. -/
theorem C10_unknown_status_branch_unreachable_witness :
    parse_status (hwRecord "proj1" "weird") ≠
      Except.error (PyError.unknownHWStatusException "Неизвестный статус домашки") :=
  C10_unknown_status_branch_unreachable (hwRecord "proj1" "weird") "Неизвестный статус домашки"

/-- C4: the claim says an unknown status makes `parse_status` fail with
`UnknownHWStatusException`; the code DOES fail, but with `KeyError` from
the dict subscript `HOMEWORK_STATUSES[homework_status]` — the explicit
unknown-status raise is dead code. -/
theorem C4_unknown_status_raises_keyError (name s : String)
    (h : List.lookup s HOMEWORK_STATUSES = Option.none) :
    parse_status (hwRecord name s) =
      Except.error (PyError.keyError ("'" ++ s ++ "'")) := by
  have hname : pyGetAttr (hwRecord name s) "homework_name" = .ok (.str name) := by
    simp [hwRecord, pyGetAttr, pyGet, List.lookup]
  have hstat : pyGetAttr (hwRecord name s) "status" = .ok (.str s) := by
    simp [hwRecord, pyGetAttr, pyGet, List.lookup]
  have hsub : pySubscript (PyVal.dict HOMEWORK_STATUSES) (.str s) =
      .error (.keyError ("'" ++ s ++ "'")) := by
    simp [pySubscript, h]
  unfold parse_status
  simp only [hname, hstat, hsub]

/-- Witness for C4 at the concrete unknown status `"weird"`. -/
theorem C4_unknown_status_raises_keyError_witness :
    parse_status (hwRecord "proj1" "weird") =
      Except.error (PyError.keyError ("'" ++ "weird" ++ "'")) :=
  C4_unknown_status_raises_keyError "proj1" "weird" (by rfl)

/-- C5 counterexample: a record with NO `homework_name` field does not
fail at all — `homework.get` returns `None` and the formatter happily
interpolates the text `None` into the message.  There is no
`MissingFieldError` anywhere in the code. -/
theorem C5_missing_name_succeeds :
    parse_status (PyVal.dict [("status", PyVal.str "approved")]) =
      Except.ok "Изменился статус проверки работы \"None\". Работа проверена: ревьюеру всё понравилось. Ура!" := rfl

/-- C5 amended: a record missing `status` fails, but with
`KeyError` (the `None` status is not a key of the table), not a
missing-field error; a record missing `homework_name` succeeds with the
name rendered as `None`. -/
theorem C5_missing_fields_behaviour (d : List (String × PyVal))
    (hs : List.lookup "status" d = Option.none) :
    parse_status (PyVal.dict d) = Except.error (PyError.keyError "None") ∧
    parse_status (PyVal.dict [("status", PyVal.str "approved")]) =
      Except.ok "Изменился статус проверки работы \"None\". Работа проверена: ревьюеру всё понравилось. Ура!" := by
  constructor
  · unfold parse_status pyGetAttr pyGet
    simp [hs, pySubscript, pyReprKey]
  · rfl

/-- Witness for C5 at a concrete record lacking `status`. -/
theorem C5_missing_fields_behaviour_witness :
    parse_status (PyVal.dict [("homework_name", PyVal.str "x")]) =
      Except.error (PyError.keyError "None") :=
  (C5_missing_fields_behaviour [("homework_name", PyVal.str "x")] (by rfl)).1

/-- C6: the claim says malformed bodies fail with the invalid-response
error (`CheckResponseException`).  `check_response` indeed fails on all
of them, but NEVER with that exception: the class is missing from
`src/exceptions.py`, so the raise itself produces an `AttributeError`
(and an unsized `homeworks` value dies earlier with `TypeError`, because
`len()` runs before the `isinstance` test). -/
theorem C6_validation_never_raises_invalid_response_error (body : PyVal) (m : String) :
    check_response body ≠ Except.error (PyError.checkResponseException m) := by
  unfold check_response
  cases hsub : pySubscriptStr body "homeworks" with
  | error e =>
    rcases pySubscriptStr_error_shape _ _ _ hsub with ⟨k, rfl⟩ | ⟨mm, rfl⟩ <;>
      simp [checkResponseAttrError]
  | ok hl =>
    simp only [ne_eq]
    cases hl with
    | none => simp [checkResponseAttrError]
    | str s =>
      by_cases h0 : s.length = 0 <;> simp [pyLen, h0, checkResponseAttrError]
    | int n => simp [pyLen, noLenMsg]
    | bool b => simp [pyLen, noLenMsg]
    | list xs =>
      by_cases h0 : xs.length = 0 <;> simp [pyLen, h0, checkResponseAttrError]
    | dict dd =>
      by_cases h0 : dd.length = 0 <;> simp [pyLen, h0, checkResponseAttrError]

/-- Witness for C6 at the concrete body `{"homeworks": []}`. -/
theorem C6_validation_never_raises_invalid_response_error_witness :
    check_response (PyVal.dict [("homeworks", PyVal.list [])]) ≠
      Except.error (PyError.checkResponseException "За последнее время нет домашних заданий") :=
  C6_validation_never_raises_invalid_response_error
    (PyVal.dict [("homeworks", PyVal.list [])]) "За последнее время нет домашних заданий"

/-- Evaluations of `check_response` at C6's failing inputs: an empty
list and a missing key die with the `AttributeError` from the undefined
exception class; an unsized value dies with `TypeError`. -/
theorem check_response_failing_inputs :
    check_response (PyVal.dict [("homeworks", PyVal.list [])]) =
      Except.error checkResponseAttrError ∧
    check_response (PyVal.dict []) = Except.error checkResponseAttrError ∧
    check_response (PyVal.dict [("homeworks", PyVal.int 5)]) =
      Except.error (PyError.typeError "object of type 'int' has no len()") :=
  ⟨rfl, rfl, rfl⟩

/-- C7: a mapping body whose `homeworks` key holds a non-empty list
passes validation, which returns that list unchanged. -/
theorem C7_valid_body_returns_list_unchanged (d : List (String × PyVal)) (xs : List PyVal)
    (h : List.lookup "homeworks" d = some (PyVal.list xs)) (hne : xs ≠ []) :
    check_response (PyVal.dict d) = Except.ok xs := by
  unfold check_response pySubscriptStr
  simp [h, pyLen, hne]

/-- Witness for C7 at a concrete one-record body. -/
theorem C7_valid_body_returns_list_unchanged_witness :
    check_response (PyVal.dict [("homeworks", PyVal.list [hwRecord "proj1" "approved"])]) =
      Except.ok [hwRecord "proj1" "approved"] :=
  C7_valid_body_returns_list_unchanged
    [("homeworks", PyVal.list [hwRecord "proj1" "approved"])]
    [hwRecord "proj1" "approved"] (by rfl) (by simp)

/-- C2 counterexample: from the loop's initial state
(`previous_status = None`), the run observing statuses
`[reviewing, reviewing, approved]` sends TWO change notifications, not
exactly one — the first cycle already notifies because `reviewing`
differs from the initial `None`. -/
theorem C2_counterexample_two_sends :
    (List.flatten (sentsOf (mainRun (initialState 0)
        [okBody "reviewing", okBody "reviewing", okBody "approved"]))).length = 2 ∧
    (List.flatten (sentsOf (mainRun (initialState 0)
        [okBody "reviewing", okBody "reviewing", okBody "approved"]))).length ≠ 1 := by
  have h2 : (List.flatten (sentsOf (mainRun (initialState 0)
      [okBody "reviewing", okBody "reviewing", okBody "approved"]))).length = 2 := by
    simp [mainRun, mainStep, get_api_answer, processResponse, listHead, pyGetAttr, pyGet,
          check_response, pySubscriptStr, pySubscript, pyLen, parse_status, handleLoopError,
          sentsOf, initialState, okBody, badBody, hwRecord, HOMEWORK_STATUSES,
          checkResponseAttrError, List.lookup, pyEq.eq_def, errStr, pyStr, pyReprKey]
  exact ⟨h2, by omega⟩

/-- C2 amended: on `[reviewing, reviewing, approved]` from the initial
state, notifications fire exactly on cycle 1 (None → reviewing) and on
cycle 3 (reviewing → approved); cycle 2 sends nothing. -/
theorem C2_notifications_on_cycles_one_and_three :
    sentsOf (mainRun (initialState 0)
        [okBody "reviewing", okBody "reviewing", okBody "approved"]) =
      [["Изменился статус проверки работы \"proj1\". Работа взята на проверку ревьюером."],
       [],
       ["Изменился статус проверки работы \"proj1\". Работа проверена: ревьюеру всё понравилось. Ура!"]] := by
  simp [mainRun, mainStep, get_api_answer, processResponse, listHead, pyGetAttr, pyGet,
        check_response, pySubscriptStr, pySubscript, pyLen, parse_status, handleLoopError,
        sentsOf, initialState, okBody, badBody, hwRecord, HOMEWORK_STATUSES,
        checkResponseAttrError, List.lookup, pyEq.eq_def, errStr, pyStr, pyReprKey]

/-- C3 counterexample: a failing cycle, a successful cycle, then a cycle
failing with the SAME error text.  The success does not reset
`previous_error`, so the third cycle sends nothing — the claim's "a
successful cycle resets the remembered last error" is false. -/
theorem C3_counterexample_no_renotify_after_success :
    sentsOf (mainRun (initialState 0) [badBody, okBody "approved", badBody]) =
      [["Сбой в работе программы: module 'exceptions' has no attribute 'CheckResponseException'"],
       ["Изменился статус проверки работы \"proj1\". Работа проверена: ревьюеру всё понравилось. Ура!"],
       []] := by
  simp [mainRun, mainStep, get_api_answer, processResponse, listHead, pyGetAttr, pyGet,
        check_response, pySubscriptStr, pySubscript, pyLen, parse_status, handleLoopError,
        sentsOf, initialState, okBody, badBody, hwRecord, HOMEWORK_STATUSES,
        checkResponseAttrError, List.lookup, pyEq.eq_def, errStr, pyStr, pyReprKey]

/-- C3 amended: after the loop handler processes an error `e`,
`previous_error` holds `str(e)`; an immediately repeated identical error
text sends nothing; a different error text sends again; and a successful
cycle does NOT reset `previous_error` — it carries the old text through,
so the identical error stays suppressed even after a success. -/
theorem C3_error_dedup_no_reset_on_success (st : LoopState) (e e2 : PyError)
    (sent : List String) (st1 : LoopState)
    (h : handleLoopError st e = CycleOutcome.next sent st1) :
    st1.previous_error = some (errStr e) ∧
    handleLoopError st1 e = CycleOutcome.next [] st1 ∧
    (errStr e2 ≠ errStr e →
      handleLoopError st1 e2 =
        CycleOutcome.next ["Сбой в работе программы: " ++ errStr e2]
          { st1 with previous_error := some (errStr e2) }) ∧
    (∀ r s2 st2, processResponse st1 r = Except.ok (s2, st2) →
      st2.previous_error = some (errStr e)) := by
  obtain ⟨hts, hps, hpe⟩ := handleLoopError_next_shape st e sent st1 h
  refine ⟨hpe, handleLoopError_dup st1 e hpe, ?_, ?_⟩
  · intro hne
    apply handleLoopError_new
    rw [hpe]
    simp only [ne_eq, Option.some.injEq]
    exact fun hh => hne hh.symm
  · intro r s2 st2 hpr
    rw [(processResponse_ok_frame st1 r s2 st2 hpr).2, hpe]

/-- Witness for C3 with two concrete distinct errors from the initial
state. -/
theorem C3_error_dedup_no_reset_on_success_witness :
    (some (errStr checkResponseAttrError) : Option String) =
      some (errStr checkResponseAttrError) :=
  (C3_error_dedup_no_reset_on_success (initialState 0) checkResponseAttrError
    (PyError.typeError "object of type 'int' has no len()") _ _ rfl).1

/-- C9: `current_timestamp` is computed once before the loop as the
start time minus 604800 seconds; every continuing iteration leaves it
unchanged and touches only `previous_status`/`previous_error`; hence
every `get_api_answer` call a run performs sends the identical
`from_date`. -/
theorem C9_since_timestamp_constant (t0 : Int) :
    (initialState t0).current_timestamp = t0 - 604800 ∧
    (∀ st fr s st1, mainStep st fr = CycleOutcome.next s st1 →
      st1.current_timestamp = st.current_timestamp ∧
      st1 = { st with previous_status := st1.previous_status,
                      previous_error := st1.previous_error }) ∧
    (∀ frs p, p ∈ runParams (initialState t0) frs →
      p = [("from_date", t0 - 604800)]) := by
  refine ⟨rfl, ?_, ?_⟩
  · intro st fr s st1 h
    have ht := mainStep_next_timestamp st fr s st1 h
    refine ⟨ht, ?_⟩
    cases st1
    cases st
    simp_all
  · intro frs p hp
    have hq := runParams_from_date (initialState t0) frs p hp
    simpa [initialState] using hq

/-- Witness for C9: the single fetch of a one-cycle run from start time
100 sends `from_date = 100 - 604800`. -/
theorem C9_since_timestamp_constant_witness :
    [("from_date", (100 : Int) - 604800)] = [("from_date", (100 : Int) - 604800)] :=
  (C9_since_timestamp_constant 100).2.2 [okBody "approved"]
    [("from_date", (100 : Int) - 604800)]
    (by
      have hr : runParams (initialState 100) [okBody "approved"] =
          [[("from_date", (100 : Int) - 604800)]] := by
        simp [runParams, mainRun, mainStep, get_api_answer, processResponse, listHead,
              pyGetAttr, pyGet, check_response, pySubscriptStr, pySubscript, pyLen,
              parse_status, handleLoopError, initialState, okBody, hwRecord,
              HOMEWORK_STATUSES, checkResponseAttrError, List.lookup, pyEq.eq_def,
              errStr, pyStr, pyReprKey]
      rw [hr]
      exact List.mem_singleton.mpr rfl)
